import Mathlib

/-!
# WADEPS CSV Validator — shallow embedding

A shallow embedding of the validation core of
`src/python_validator/wadeps_validator.py` (class `WADEPSValidator`):
header comparison, per-field rule dispatch (`_validate_field`), the
subject-identifier classifier (`_validate_subject_id`), and the report
aggregation loop of `validate_csv`.

Modelling conventions:
* Raw cell values and column names are `String`.  Character-level
  operations (Python `str.strip`, `str.lower`, `str.upper`, `str.split`)
  are modelled for ASCII text, which is the alphabet the validator's
  rules and messages use.
* Python numbers (JSON numbers, the result of `float(...)`) are
  modelled by `ℚ`.  The parsing function `float(value)` is a trusted
  library primitive, so the evaluator is parameterised by an arbitrary
  `parseNum : String → Option ℚ` (`none` models a raised `ValueError`).
* The anchored regexes of the source (`^...$` patterns applied with
  `re.match` to stripped values, which carry no trailing newline) are
  embedded as full-string boolean matchers.  A `pattern`-rule regex is
  abstract: the rule carries the decidable language of the regex, and
  `re.match` is embedded as "some prefix of the input is in the
  language" (`reMatch`).
* A `DictReader` row is an association list `List (String × String)`;
  the validation table `self.validations` is an association list
  `List (String × Rule)`; `dict.get` is `List.lookup`.
* `datetime.now().isoformat()` (line 53 of the source) is a
  run-dependent input, passed in as the `timestamp` argument.
-/

namespace WADEPS

/-- Characters stripped by Python `str.strip()` (ASCII whitespace). -/
def isPySpace (c : Char) : Bool :=
  c = ' ' || c = '\t' || c = '\n' || c = '\r' || c = '\x0b' || c = '\x0c'

/-- Python `str.strip()`: drop leading and trailing whitespace. -/
def pyStrip (s : String) : String :=
  ⟨((s.data.dropWhile isPySpace).reverse.dropWhile isPySpace).reverse⟩

/-- Python `str.lower()` (ASCII). -/
def lowerStr (s : String) : String := ⟨s.data.map Char.toLower⟩

/-- Python `str.upper()` (ASCII). -/
def upperStr (s : String) : String := ⟨s.data.map Char.toUpper⟩

/-- Helper for `pySplit`: accumulate the current word (reversed). -/
def pySplitAux : List Char → List Char → List (List Char)
  | [], cur => if cur.isEmpty then [] else [cur.reverse]
  | c :: rest, cur =>
    if isPySpace c then
      if cur.isEmpty then pySplitAux rest [] else cur.reverse :: pySplitAux rest []
    else pySplitAux rest (c :: cur)

/-- Python `str.split()` (no argument): split on runs of whitespace,
discarding empty parts. -/
def pySplit (s : String) : List String :=
  (pySplitAux s.data []).map fun l => ⟨l⟩

/-- The date regex of the source,
`^(0[1-9]|1[0-2])/(0[1-9]|[12][0-9]|3[01])/\d{4}$`, as a full-string
matcher (the input is stripped, hence has no trailing newline, so
Python's `$` means end of string here). -/
def dateMatch (s : String) : Bool :=
  match s.data with
  | [m1, m2, s1, d1, d2, s2, y1, y2, y3, y4] =>
    s1 = '/' && s2 = '/' &&
    ((m1 = '0' && '1' ≤ m2 && m2 ≤ '9') || (m1 = '1' && '0' ≤ m2 && m2 ≤ '2')) &&
    ((d1 = '0' && '1' ≤ d2 && d2 ≤ '9') ||
     ((d1 = '1' || d1 = '2') && d2.isDigit) ||
     (d1 = '3' && (d2 = '0' || d2 = '1'))) &&
    (y1.isDigit && y2.isDigit && y3.isDigit && y4.isDigit)
  | _ => false

/-- The time regex of the source, `^\d{2}:\d{2}$`, as a full-string
matcher. -/
def timeMatch (s : String) : Bool :=
  match s.data with
  | [h1, h2, c, m1, m2] => h1.isDigit && h2.isDigit && c = ':' && m1.isDigit && m2.isDigit
  | _ => false

/-- Tail of the second subject-id alternative after the leading letter:
`(\.[A-Za-z])*\.?` followed by end of string. -/
def dotsTail : List Char → Bool
  | [] => true
  | ['.'] => true
  | '.' :: c :: rest => c.isAlpha && dotsTail rest
  | _ => false

/-- The subject-id regex of the source,
`^[A-Za-z]{1,4}$|^[A-Za-z](\.[A-Za-z])*\.?$`, as a full-string
matcher. -/
def subjectMatch (s : String) : Bool :=
  (1 ≤ s.data.length && s.data.length ≤ 4 && s.data.all Char.isAlpha) ||
  (match s.data with
   | c :: rest => c.isAlpha && dotsTail rest
   | [] => false)

/-- Python `re.match(pat, s)` for an abstract pattern: the regex matches
at the beginning of the string, i.e. some prefix of `s` belongs to the
pattern's language `pat`. -/
def reMatch (pat : List Char → Bool) (s : String) : Bool :=
  (List.range (s.data.length + 1)).any fun n => pat (s.data.take n)

/-- Rendering of a schema number inside a message (stands in for
Python's `f"{rule['min']}"` formatting). -/
def numRepr (q : ℚ) : String := toString q

/-- A validation rule: the Python dict stored in `self.validations`,
dispatched on its `'type'` string.  Fields irrelevant to a given type
keep their defaults, matching absent dict keys. -/
structure Rule where
  type : String
  values : List String := []
  format : Option String := none
  min : Option ℚ := none
  max : Option ℚ := none
  pat : List Char → Bool := fun _ => false
  patStr : String := ""
  description : Option String := none

/-- A finding returned by `_validate_field`. -/
structure FieldFinding where
  row : Nat
  column : String
  value : String
  error : String
  severity : String
deriving DecidableEq, Repr

/-- A finding returned by `_validate_subject_id`. -/
structure SubjectIdFinding where
  row : Nat
  value : String
  type : String
  error : String
deriving DecidableEq, Repr

/-- The message of a failed list-rule check: the first 5 allowed values,
comma-separated, with an ellipsis marker when more than 5 exist. -/
def listMsg (values : List String) : String :=
  "Must be one of: " ++ String.intercalate ", " (values.take 5) ++
    (if values.length > 5 then "..." else "")

/-- `WADEPSValidator._validate_field` (source lines 136–231).
`parseNum` models Python's `float`. -/
def validate_field (parseNum : String → Option ℚ) (validations : List (String × Rule))
    (header : String) (value : String) (row_num : Nat) : Option FieldFinding :=
  if value = "" || pyStrip value = "" then none
  else
    match validations.lookup header with
    | none => none
    | some rule =>
      let v := pyStrip value
      if rule.type = "list" then
        if !(rule.values.contains v) then
          if rule.values.length = 2 && rule.values.contains "Yes" && rule.values.contains "No" then
            if !((rule.values.map lowerStr).contains (lowerStr v)) then
              some ⟨row_num, header, v, listMsg rule.values, "error"⟩
            else none
          else
            some ⟨row_num, header, v, listMsg rule.values, "error"⟩
        else none
      else if rule.type = "date" then
        if !(dateMatch v) then
          some ⟨row_num, header, v,
            "Invalid date format. Expected " ++ rule.format.getD "MM/DD/YYYY", "error"⟩
        else none
      else if rule.type = "time" then
        if !(timeMatch v) then
          some ⟨row_num, header, v,
            "Invalid time format. Expected " ++ rule.format.getD "HH:MM", "error"⟩
        else none
      else if rule.type = "number" then
        match parseNum v with
        | none => some ⟨row_num, header, v, "Must be a number", "error"⟩
        | some num =>
          if (match rule.min with | some m => decide (num < m) | none => false) then
            some ⟨row_num, header, v,
              "Value must be >= " ++ numRepr ((rule.min).getD 0), "error"⟩
          else if (match rule.max with | some m => decide (m < num) | none => false) then
            some ⟨row_num, header, v,
              "Value must be <= " ++ numRepr ((rule.max).getD 0), "error"⟩
          else none
      else if rule.type = "pattern" then
        if !(reMatch rule.pat (upperStr v)) then
          some ⟨row_num, header, v,
            rule.description.getD ("Must match pattern: " ++ rule.patStr), "error"⟩
        else none
      else none

/-- `WADEPSValidator._validate_subject_id` (source lines 233–269). -/
def validate_subject_id (value : String) (row_num : Nat) : Option SubjectIdFinding :=
  if value = "" || pyStrip value = "" then none
  else
    let val := pyStrip value
    if lowerStr val = "unknown" || lowerStr val = "unk" then
      some ⟨row_num, val, "unknown", "Subject ID should not be \"unknown\""⟩
    else if val.data.contains ' ' &&
        (2 ≤ (pySplit val).length && (pySplit val).any fun p => 3 < p.data.length) then
      some ⟨row_num, val, "name", "Subject ID appears to be a full name. Use initials instead"⟩
    else if !(subjectMatch val) then
      some ⟨row_num, val, "invalid",
        "Subject ID must be initials (e.g., \"JD\", \"J.D.\", \"J.D.S\")"⟩
    else none

/-- The `header_validation` part of the results dict.  The source
computes `matching`, `missing` and `extra` with Python set operations
(then lists them in hash order); we keep the sets. -/
structure HeaderComparison where
  matching : Finset String
  missing : Finset String
  extra : Finset String
  is_valid : Bool
deriving DecidableEq

/-- The `data_validation` part of the results dict. -/
structure DataValidation where
  errors : List FieldFinding
  warnings : List FieldFinding
  total_rows : Nat
deriving DecidableEq, Repr

/-- The `subject_id_validation` part of the results dict. -/
structure SubjectIdValidation where
  unknown_count : Nat
  name_count : Nat
  invalid_count : Nat
  examples : List SubjectIdFinding
deriving DecidableEq, Repr

/-- The results dict built by `validate_csv` (source lines 51–71). -/
structure ValidationReport where
  file : String
  timestamp : String
  header_validation : HeaderComparison
  data_validation : DataValidation
  subject_id_validation : SubjectIdValidation
deriving DecidableEq

/-- The header check of `validate_csv` (source lines 79–85):
`matching = template_set & csv_set`, `missing = template_set - csv_set`,
`extra = csv_set - template_set`, `is_valid = len(missing) == 0`. -/
def compare_headers (expected actual : List String) : HeaderComparison :=
  let template_set := expected.toFinset
  let csv_set := actual.toFinset
  { matching := template_set ∩ csv_set
    missing := template_set \ csv_set
    extra := csv_set \ template_set
    is_valid := (template_set \ csv_set).card == 0 }

/-- The initial results dict of `validate_csv` (source lines 51–71). -/
def initial_report (file timestamp : String) : ValidationReport :=
  { file := file
    timestamp := timestamp
    header_validation := { matching := ∅, missing := ∅, extra := ∅, is_valid := false }
    data_validation := { errors := [], warnings := [], total_rows := 0 }
    subject_id_validation :=
      { unknown_count := 0, name_count := 0, invalid_count := 0, examples := [] } }

/-- Routing of a field finding by severity (source lines 100–104). -/
def route_finding (dv : DataValidation) (f : FieldFinding) : DataValidation :=
  if f.severity = "error" then {dv with errors := dv.errors ++ [f]}
  else {dv with warnings := dv.warnings ++ [f]}

/-- The per-row field loop of `validate_csv` (source lines 96–104):
for each CSV header with a validation rule, validate `row.get(header, '')`. -/
def process_fields (parseNum : String → Option ℚ) (validations : List (String × Rule))
    (csv_headers : List String) (row : List (String × String)) (row_num : Nat)
    (dv : DataValidation) : DataValidation :=
  csv_headers.foldl (fun dv header =>
    if (validations.lookup header).isSome then
      match validate_field parseNum validations header ((row.lookup header).getD "") row_num with
      | some f => route_finding dv f
      | none => dv
    else dv) dv

/-- The count update of the subject-id step (source lines 110–115):
bump the counter matching the finding's classification. -/
def bump_count (siv : SubjectIdValidation) (sr : SubjectIdFinding) : SubjectIdValidation :=
  if sr.type = "unknown" then {siv with unknown_count := siv.unknown_count + 1}
  else if sr.type = "name" then {siv with name_count := siv.name_count + 1}
  else if sr.type = "invalid" then {siv with invalid_count := siv.invalid_count + 1}
  else siv

/-- The example retention of the subject-id step (source lines 117–118):
append only while fewer than 5 examples are retained. -/
def append_example (siv : SubjectIdValidation) (sr : SubjectIdFinding) : SubjectIdValidation :=
  if siv.examples.length < 5 then {siv with examples := siv.examples ++ [sr]} else siv

/-- The per-row subject-id step of `validate_csv` (source lines 107–118):
classify `row['subject_id']` when present, bump the matching count, and
append to `examples` only while fewer than 5 are retained. -/
def process_subject (row : List (String × String)) (row_num : Nat)
    (siv : SubjectIdValidation) : SubjectIdValidation :=
  match row.lookup "subject_id" with
  | none => siv
  | some sv =>
    match validate_subject_id sv row_num with
    | none => siv
    | some sr => append_example (bump_count siv sr) sr

/-- One iteration of the row loop of `validate_csv` (source lines 92–118):
bump `total_rows`, run the field loop, run the subject-id step. -/
def process_row (parseNum : String → Option ℚ) (validations : List (String × Rule))
    (csv_headers : List String) (row : List (String × String)) (row_num : Nat)
    (r : ValidationReport) : ValidationReport :=
  { r with
    data_validation :=
      process_fields parseNum validations csv_headers row row_num
        {r.data_validation with total_rows := r.data_validation.total_rows + 1}
    subject_id_validation := process_subject row row_num r.subject_id_validation }

/-- The row loop of `validate_csv`: `enumerate(reader, start=2)` supplies
consecutive row numbers. -/
def process_rows (parseNum : String → Option ℚ) (validations : List (String × Rule))
    (csv_headers : List String) :
    List (List (String × String)) → Nat → ValidationReport → ValidationReport
  | [], _, r => r
  | row :: rest, n, r =>
    process_rows parseNum validations csv_headers rest (n + 1)
      (process_row parseNum validations csv_headers row n r)

/-- `WADEPSValidator.validate_csv` (source lines 47–134), with the file
reading factored out: the caller supplies the file name, the clock
reading `timestamp` (`datetime.now().isoformat()`), the parsed header
row `csv_headers` and the parsed records `rows`. -/
def validate_csv (parseNum : String → Option ℚ) (headers : List String)
    (validations : List (String × Rule)) (file timestamp : String)
    (csv_headers : List String) (rows : List (List (String × String))) : ValidationReport :=
  process_rows parseNum validations csv_headers rows 2
    {initial_report file timestamp with header_validation := compare_headers headers csv_headers}

/-- The sum of the three subject-id classification counters. -/
def countsSum (siv : SubjectIdValidation) : Nat :=
  siv.unknown_count + siv.name_count + siv.invalid_count

/-- 1 when this row carries a `subject_id` field that the classifier
flags, 0 otherwise. -/
def classifiedInRow (row : List (String × String)) (row_num : Nat) : Nat :=
  match row.lookup "subject_id" with
  | some sv => if (validate_subject_id sv row_num).isSome then 1 else 0
  | none => 0

/-- The number of classified subject-id findings across a row sequence
whose first row is numbered `n`. -/
def classifiedRows : List (List (String × String)) → Nat → Nat
  | [], _ => 0
  | row :: rest, n => classifiedInRow row n + classifiedRows rest (n + 1)

/-- A parse function that rejects everything (all claims about
non-number rules are independent of it). -/
def pn0 : String → Option ℚ := fun _ => none

/-- A list rule whose values list is `["Yes", "No", "Yes"]`: its allowed
set is the two-element set containing Yes and No, but its list length
is 3. -/
def dupYesNoRule : Rule := { type := "list", values := ["Yes", "No", "Yes"] }

/-- The Yes/No list rule. -/
def yesNoRule : Rule := { type := "list", values := ["Yes", "No"] }

/-- A bare date rule. -/
def dateRule0 : Rule := { type := "date" }

/-- A number rule with a minimum bound of 10. -/
def numberRule0 : Rule := { type := "number", min := some 10 }

/-- A pattern rule whose regex language contains exactly the string AB. -/
def patternRule0 : Rule :=
  { type := "pattern", pat := fun l => l = ['A', 'B'], patStr := "AB" }

/-- A rule with an unrecognized type tag. -/
def bogusRule0 : Rule := { type := "bogus" }

/-- Seven identical records, each with a flagged subject id. -/
def rows7 : List (List (String × String)) :=
  List.replicate 7 [("subject_id", "unknown")]

/-- C2: `compare_headers` treats both inputs as sets and returns the
intersection, the two differences, and `is_valid` iff nothing is
missing; the stated set algebra follows. -/
theorem C2_compare_headers (expected actual : List String) :
    (compare_headers expected actual).matching = expected.toFinset ∩ actual.toFinset ∧
    (compare_headers expected actual).missing = expected.toFinset \ actual.toFinset ∧
    (compare_headers expected actual).extra = actual.toFinset \ expected.toFinset ∧
    (compare_headers expected actual).matching ∪ (compare_headers expected actual).missing
      = expected.toFinset ∧
    (compare_headers expected actual).matching ∪ (compare_headers expected actual).extra
      = actual.toFinset ∧
    (compare_headers expected actual).matching ∩ (compare_headers expected actual).missing
      = ∅ ∧
    ((compare_headers expected actual).is_valid = true ↔
      (compare_headers expected actual).missing = ∅) := by
  refine ⟨rfl, rfl, rfl, ?_, ?_, ?_, ?_⟩
  · ext x
    simp only [compare_headers, Finset.mem_union, Finset.mem_inter, Finset.mem_sdiff]
    tauto
  · ext x
    simp only [compare_headers, Finset.mem_union, Finset.mem_inter, Finset.mem_sdiff]
    tauto
  · ext x
    simp only [compare_headers, Finset.mem_inter, Finset.mem_sdiff, Finset.not_mem_empty,
      iff_false]
    tauto
  · simp only [compare_headers, beq_iff_eq, decide_eq_true_eq, Finset.card_eq_zero]

/-- `process_row` commutes with overwriting the timestamp field: the
row loop never reads or writes it. -/
theorem process_row_timestamp_set (parseNum : String → Option ℚ)
    (validations : List (String × Rule)) (csv_headers : List String)
    (row : List (String × String)) (row_num : Nat) (r : ValidationReport) (t : String) :
    process_row parseNum validations csv_headers row row_num {r with timestamp := t}
      = {process_row parseNum validations csv_headers row row_num r with timestamp := t} := rfl

/-- The whole row loop commutes with overwriting the timestamp field. -/
theorem process_rows_timestamp_set (parseNum : String → Option ℚ)
    (validations : List (String × Rule)) (csv_headers : List String)
    (rows : List (List (String × String))) (n : Nat) (r : ValidationReport) (t : String) :
    process_rows parseNum validations csv_headers rows n {r with timestamp := t}
      = {process_rows parseNum validations csv_headers rows n r with timestamp := t} := by
  induction rows generalizing n r with
  | nil => rfl
  | cons row rest ih =>
    simp only [process_rows, process_row_timestamp_set, ih]

/-- The row loop leaves the timestamp field unchanged. -/
theorem process_rows_timestamp (parseNum : String → Option ℚ)
    (validations : List (String × Rule)) (csv_headers : List String)
    (rows : List (List (String × String))) (n : Nat) (r : ValidationReport) :
    (process_rows parseNum validations csv_headers rows n r).timestamp = r.timestamp := by
  induction rows generalizing n r with
  | nil => rfl
  | cons row rest ih => simp only [process_rows, ih]; rfl

/-- C1 (amended): apart from the `timestamp` field, which echoes the
clock reading supplied by the caller, the report is a deterministic
function of the schema, file name, header row and records: two runs
differing only in the clock reading produce reports that differ only in
the timestamp field. -/
theorem C1_determinism (parseNum : String → Option ℚ) (headers : List String)
    (validations : List (String × Rule)) (file t1 t2 : String)
    (csv_headers : List String) (rows : List (List (String × String))) :
    validate_csv parseNum headers validations file t1 csv_headers rows
      = {validate_csv parseNum headers validations file t2 csv_headers rows with
          timestamp := t1} ∧
    (validate_csv parseNum headers validations file t1 csv_headers rows).timestamp = t1 := by
  constructor
  · exact process_rows_timestamp_set parseNum validations csv_headers rows 2
      {initial_report file t2 with header_validation := compare_headers headers csv_headers} t1
  · exact process_rows_timestamp parseNum validations csv_headers rows 2 _

/-- C1 counterexample: the report does contain a run-dependent
timestamp — two runs of `validate_csv` on identical schema and records
but different clock readings yield different reports, so the report is
not a function of schema, header row and records alone. -/
theorem C1_counterexample :
    validate_csv pn0 [] [] "f.csv" "2024-01-01T00:00:00" [] []
      ≠ validate_csv pn0 [] [] "f.csv" "2024-01-02T00:00:00" [] [] := by
  decide

/-- Routing a finding only appends to a list; it never touches the row
counter. -/
theorem route_finding_total_rows (dv : DataValidation) (f : FieldFinding) :
    (route_finding dv f).total_rows = dv.total_rows := by
  unfold route_finding
  split <;> rfl

/-- The per-row field loop never touches the row counter. -/
theorem process_fields_total_rows (parseNum : String → Option ℚ)
    (validations : List (String × Rule)) (csv_headers : List String)
    (row : List (String × String)) (row_num : Nat) (dv : DataValidation) :
    (process_fields parseNum validations csv_headers row row_num dv).total_rows
      = dv.total_rows := by
  unfold process_fields
  induction csv_headers generalizing dv with
  | nil => rfl
  | cons h rest ih =>
    rw [List.foldl_cons, ih]
    split
    · split
      · exact route_finding_total_rows ..
      · rfl
    · rfl

/-- Each row processed bumps `total_rows` exactly once. -/
theorem process_row_total_rows (parseNum : String → Option ℚ)
    (validations : List (String × Rule)) (csv_headers : List String)
    (row : List (String × String)) (row_num : Nat) (r : ValidationReport) :
    (process_row parseNum validations csv_headers row row_num r).data_validation.total_rows
      = r.data_validation.total_rows + 1 := by
  unfold process_row
  exact process_fields_total_rows ..

/-- The row loop adds the number of rows to the counter. -/
theorem process_rows_total_rows (parseNum : String → Option ℚ)
    (validations : List (String × Rule)) (csv_headers : List String)
    (rows : List (List (String × String))) (n : Nat) (r : ValidationReport) :
    (process_rows parseNum validations csv_headers rows n r).data_validation.total_rows
      = r.data_validation.total_rows + rows.length := by
  induction rows generalizing n r with
  | nil => rfl
  | cons row rest ih =>
    rw [process_rows, ih, process_row_total_rows, List.length_cons]
    omega

/-- C9: the report's `total_rows` equals the number of records — each
record increments the counter exactly once, regardless of how many
findings it produces, and no row is dropped. -/
theorem C9_total_rows (parseNum : String → Option ℚ) (headers : List String)
    (validations : List (String × Rule)) (file timestamp : String)
    (csv_headers : List String) (rows : List (List (String × String))) :
    (validate_csv parseNum headers validations file timestamp csv_headers
        rows).data_validation.total_rows = rows.length := by
  unfold validate_csv
  rw [process_rows_total_rows]
  simp [initial_report]

/-- Every finding produced by the subject-id classifier carries one of
the three classification tags. -/
theorem validate_subject_id_type (v : String) (n : Nat) (sr : SubjectIdFinding)
    (h : validate_subject_id v n = some sr) :
    sr.type = "unknown" ∨ sr.type = "name" ∨ sr.type = "invalid" := by
  unfold validate_subject_id at h
  split at h
  · exact absurd h (by simp)
  · dsimp only at h
    split at h
    · cases h; left; rfl
    · split at h
      · cases h; right; left; rfl
      · split at h
        · cases h; right; right; rfl
        · exact absurd h (by simp)

/-- Bumping a classification counter leaves the examples untouched. -/
theorem bump_count_examples (siv : SubjectIdValidation) (sr : SubjectIdFinding) :
    (bump_count siv sr).examples = siv.examples := by
  unfold bump_count
  split
  · rfl
  · split
    · rfl
    · split <;> rfl

/-- Appending an example preserves the three counters. -/
theorem append_example_counts (siv : SubjectIdValidation) (sr : SubjectIdFinding) :
    countsSum (append_example siv sr) = countsSum siv := by
  unfold append_example
  split <;> rfl

/-- Appending under the cap keeps the example buffer within its bound. -/
theorem append_example_le (siv : SubjectIdValidation) (sr : SubjectIdFinding)
    (h : siv.examples.length ≤ 5) : (append_example siv sr).examples.length ≤ 5 := by
  unfold append_example
  split
  · rename_i hlt
    simp only [List.length_append, List.length_singleton]
    omega
  · exact h

/-- Bumping the counter matching a classifier finding adds exactly one
to the sum of the three counters. -/
theorem bump_count_sum (siv : SubjectIdValidation) (sr : SubjectIdFinding)
    (h : sr.type = "unknown" ∨ sr.type = "name" ∨ sr.type = "invalid") :
    countsSum (bump_count siv sr) = countsSum siv + 1 := by
  unfold bump_count countsSum
  rcases h with h | h | h <;> simp [h] <;> omega

/-- The subject-id step never lets the example buffer exceed 5. -/
theorem process_subject_examples_le (row : List (String × String)) (n : Nat)
    (siv : SubjectIdValidation) (h : siv.examples.length ≤ 5) :
    (process_subject row n siv).examples.length ≤ 5 := by
  unfold process_subject
  split
  · exact h
  · split
    · exact h
    · exact append_example_le _ _ (by rw [bump_count_examples]; exact h)

/-- The subject-id step adds exactly the row's classified-finding count
(0 or 1) to the sum of the three counters, whether or not the example
buffer is already full. -/
theorem process_subject_sum (row : List (String × String)) (n : Nat)
    (siv : SubjectIdValidation) :
    countsSum (process_subject row n siv) = countsSum siv + classifiedInRow row n := by
  unfold process_subject
  split
  · rename_i heq
    simp [classifiedInRow, heq]
  · rename_i sv heq
    split
    · rename_i heq2
      simp [classifiedInRow, heq, heq2]
    · rename_i sr heq2
      rw [append_example_counts, bump_count_sum _ _ (validate_subject_id_type _ _ _ heq2)]
      simp [classifiedInRow, heq, heq2]

/-- The row step touches the subject-id section only through
`process_subject`. -/
theorem process_row_subject (parseNum : String → Option ℚ)
    (validations : List (String × Rule)) (csv_headers : List String)
    (row : List (String × String)) (row_num : Nat) (r : ValidationReport) :
    (process_row parseNum validations csv_headers row row_num r).subject_id_validation
      = process_subject row row_num r.subject_id_validation := rfl

/-- Along the whole row loop the example buffer stays within 5. -/
theorem process_rows_examples_le (parseNum : String → Option ℚ)
    (validations : List (String × Rule)) (csv_headers : List String)
    (rows : List (List (String × String))) (n : Nat) (r : ValidationReport)
    (h : r.subject_id_validation.examples.length ≤ 5) :
    (process_rows parseNum validations csv_headers rows n
        r).subject_id_validation.examples.length ≤ 5 := by
  induction rows generalizing n r with
  | nil => exact h
  | cons row rest ih =>
    rw [process_rows]
    exact ih _ _ (by rw [process_row_subject]; exact process_subject_examples_le _ _ _ h)

/-- Along the whole row loop the counter sum accumulates exactly the
number of classified findings. -/
theorem process_rows_sum (parseNum : String → Option ℚ)
    (validations : List (String × Rule)) (csv_headers : List String)
    (rows : List (List (String × String))) (n : Nat) (r : ValidationReport) :
    countsSum (process_rows parseNum validations csv_headers rows n r).subject_id_validation
      = countsSum r.subject_id_validation + classifiedRows rows n := by
  induction rows generalizing n r with
  | nil => rfl
  | cons row rest ih =>
    rw [process_rows, ih, process_row_subject, process_subject_sum, classifiedRows]
    omega

/-- C4: the example buffer never holds more than 5 entries — the
subject-id step preserves the bound at every point, and the final
report obeys it — while every classified finding, also after the cap is
reached, still adds exactly one to the classification counters. -/
theorem C4_examples_cap (parseNum : String → Option ℚ) (headers : List String)
    (validations : List (String × Rule)) (file timestamp : String)
    (csv_headers : List String) (rows : List (List (String × String))) :
    (∀ (row : List (String × String)) (n : Nat) (siv : SubjectIdValidation),
      siv.examples.length ≤ 5 → (process_subject row n siv).examples.length ≤ 5) ∧
    (validate_csv parseNum headers validations file timestamp csv_headers
        rows).subject_id_validation.examples.length ≤ 5 ∧
    (∀ (row : List (String × String)) (n : Nat) (siv : SubjectIdValidation),
      countsSum (process_subject row n siv) = countsSum siv + classifiedInRow row n) ∧
    countsSum (validate_csv parseNum headers validations file timestamp csv_headers
        rows).subject_id_validation = classifiedRows rows 2 := by
  refine ⟨process_subject_examples_le, ?_, process_subject_sum, ?_⟩
  · exact process_rows_examples_le parseNum validations csv_headers rows 2 _ (by simp [initial_report])
  · rw [validate_csv, process_rows_sum]
    simp [initial_report, countsSum]

/-- C4 witness: the cap and count facts evaluated on a concrete
seven-row run. -/
theorem C4_examples_cap_witness :
    (validate_csv pn0 ["subject_id"] [] "f.csv" "T" ["subject_id"]
        rows7).subject_id_validation.examples.length ≤ 5 ∧
    (process_subject [("subject_id", "unknown")] 2
        ⟨0, 0, 0, []⟩).examples.length ≤ 5 ∧
    countsSum (process_subject [("subject_id", "unknown")] 2 ⟨0, 0, 0, []⟩)
      = countsSum ⟨0, 0, 0, []⟩ + classifiedInRow [("subject_id", "unknown")] 2 ∧
    countsSum (validate_csv pn0 ["subject_id"] [] "f.csv" "T" ["subject_id"]
        rows7).subject_id_validation = classifiedRows rows7 2 :=
  ⟨(C4_examples_cap pn0 ["subject_id"] [] "f.csv" "T" ["subject_id"] rows7).2.1,
   (C4_examples_cap pn0 ["subject_id"] [] "f.csv" "T" ["subject_id"] rows7).1 _ 2 _
     (by decide),
   (C4_examples_cap pn0 ["subject_id"] [] "f.csv" "T" ["subject_id"] rows7).2.2.1 _ 2 _,
   (C4_examples_cap pn0 ["subject_id"] [] "f.csv" "T" ["subject_id"] rows7).2.2.2⟩

/-- C10: a rule whose type tag is none of the five recognized variants
never produces a finding — unrecognized rule kinds are silently
ignored. -/
theorem C10_unknown_rule_type (parseNum : String → Option ℚ)
    (validations : List (String × Rule)) (header value : String) (row_num : Nat)
    (rule : Rule) (hlook : validations.lookup header = some rule)
    (h : rule.type ∉ (["list", "date", "time", "number", "pattern"] : List String)) :
    validate_field parseNum validations header value row_num = none := by
  simp only [List.mem_cons, List.not_mem_nil, or_false, not_or] at h
  obtain ⟨h1, h2, h3, h4, h5⟩ := h
  unfold validate_field
  by_cases hv : value = ""
  · simp [hv]
  · by_cases hps : pyStrip value = ""
    · simp [hps]
    · simp [hv, hps, hlook, h1, h2, h3, h4, h5]

/-- C10 witness: a rule of type bogus accepts the value 5. -/
theorem C10_unknown_rule_type_witness :
    validate_field pn0 [("c", bogusRule0)] "c" "5" 2 = none :=
  C10_unknown_rule_type pn0 [("c", bogusRule0)] "c" "5" 2 bogusRule0 rfl (by decide)

/-- C7: a date rule accepts a non-empty trimmed value exactly when it
fully matches the date regex; 02/30/2024 is accepted (no month-length
check) while 13/01/2024 and 1/2/2024 each produce an error finding. -/
theorem C7_date_rule (parseNum : String → Option ℚ)
    (validations : List (String × Rule)) (header value : String) (row_num : Nat)
    (rule : Rule) (hlook : validations.lookup header = some rule)
    (htype : rule.type = "date") (hne : value ≠ "") (hs : pyStrip value ≠ "") :
    (validate_field parseNum validations header value row_num = none ↔
      dateMatch (pyStrip value) = true) ∧
    validate_field pn0 [("event_date", dateRule0)] "event_date" "02/30/2024" 2 = none ∧
    validate_field pn0 [("event_date", dateRule0)] "event_date" "13/01/2024" 2
      = some ⟨2, "event_date", "13/01/2024", "Invalid date format. Expected MM/DD/YYYY",
          "error"⟩ ∧
    validate_field pn0 [("event_date", dateRule0)] "event_date" "1/2/2024" 2
      = some ⟨2, "event_date", "1/2/2024", "Invalid date format. Expected MM/DD/YYYY",
          "error"⟩ := by
  refine ⟨?_, by decide, by decide, by decide⟩
  unfold validate_field
  cases hdm : dateMatch (pyStrip value) <;> simp [hne, hs, hlook, htype, hdm]

/-- C7 witness: the acceptance criterion applied to 02/30/2024. -/
theorem C7_date_rule_witness :
    pyStrip "02/30/2024" ≠ "" ∧
    (validate_field pn0 [("event_date", dateRule0)] "event_date" "02/30/2024" 2 = none ↔
      dateMatch (pyStrip "02/30/2024") = true) :=
  ⟨by decide,
   (C7_date_rule pn0 [("event_date", dateRule0)] "event_date" "02/30/2024" 2 dateRule0
     rfl rfl (by decide) (by decide)).1⟩

/-- C6: for a number rule on a non-empty trimmed value, a parse failure
yields exactly the finding Must be a number and no bound check runs; on
a successful parse a violated minimum yields the >= finding (taking
precedence over any maximum), otherwise a violated maximum yields the
<= finding, otherwise no finding. -/
theorem C6_number_rule (parseNum : String → Option ℚ)
    (validations : List (String × Rule)) (header value : String) (row_num : Nat)
    (rule : Rule) (hlook : validations.lookup header = some rule)
    (htype : rule.type = "number") (hne : value ≠ "") (hs : pyStrip value ≠ "") :
    (parseNum (pyStrip value) = none →
      validate_field parseNum validations header value row_num
        = some ⟨row_num, header, pyStrip value, "Must be a number", "error"⟩) ∧
    (∀ q m, parseNum (pyStrip value) = some q → rule.min = some m → q < m →
      validate_field parseNum validations header value row_num
        = some ⟨row_num, header, pyStrip value, "Value must be >= " ++ numRepr m, "error"⟩) ∧
    (∀ q M, parseNum (pyStrip value) = some q →
      (∀ m, rule.min = some m → ¬q < m) → rule.max = some M → M < q →
      validate_field parseNum validations header value row_num
        = some ⟨row_num, header, pyStrip value, "Value must be <= " ++ numRepr M, "error"⟩) ∧
    (∀ q, parseNum (pyStrip value) = some q →
      (∀ m, rule.min = some m → ¬q < m) → (∀ M, rule.max = some M → ¬M < q) →
      validate_field parseNum validations header value row_num = none) := by
  refine ⟨?_, ?_, ?_, ?_⟩
  · intro hp
    unfold validate_field
    simp [hne, hs, hlook, htype, hp]
  · intro q m hp hm hlt
    unfold validate_field
    simp [hne, hs, hlook, htype, hp, hm, hlt]
  · intro q M hp hnomin hM hgt
    unfold validate_field
    cases hm : rule.min with
    | none => simp [hne, hs, hlook, htype, hp, hm, hM, hgt]
    | some m => simp [hne, hs, hlook, htype, hp, hm, hM, hgt, hnomin m hm]
  · intro q hp hnomin hnomax
    unfold validate_field
    cases hm : rule.min with
    | none =>
      cases hM : rule.max with
      | none => simp [hne, hs, hlook, htype, hp, hm, hM]
      | some M => simp [hne, hs, hlook, htype, hp, hm, hM, hnomax M hM]
    | some m =>
      cases hM : rule.max with
      | none => simp [hne, hs, hlook, htype, hp, hm, hM, hnomin m hm]
      | some M => simp [hne, hs, hlook, htype, hp, hm, hM, hnomin m hm, hnomax M hM]

/-- C6 witness: a parser that reads 5 as the number 5, against the rule
with minimum 10, produces the >= finding; an unparseable value produces
Must be a number. -/
theorem C6_number_rule_witness :
    (5 : ℚ) < 10 ∧
    validate_field (fun _ => some 5) [("c", numberRule0)] "c" "5" 2
      = some ⟨2, "c", "5", "Value must be >= " ++ numRepr 10, "error"⟩ ∧
    validate_field pn0 [("c", numberRule0)] "c" "abc" 2
      = some ⟨2, "c", "abc", "Must be a number", "error"⟩ :=
  ⟨by norm_num,
   (C6_number_rule (fun _ => some 5) [("c", numberRule0)] "c" "5" 2 numberRule0
     rfl rfl (by decide) (by decide)).2.1 5 10 rfl rfl (by norm_num),
   (C6_number_rule pn0 [("c", numberRule0)] "c" "abc" 2 numberRule0
     rfl rfl (by decide) (by decide)).1 rfl⟩

/-- C5 (amended): the list-rule membership test on the trimmed value is
case-sensitive — a value exactly equal to some allowed value never
produces a finding — except when the values list has exactly two
entries and contains both Yes and No (order-independent), in which case
membership is case-insensitive. -/
theorem C5_list_rule (parseNum : String → Option ℚ)
    (validations : List (String × Rule)) (header value : String) (row_num : Nat)
    (rule : Rule) (hlook : validations.lookup header = some rule)
    (htype : rule.type = "list") :
    (pyStrip value ∈ rule.values →
      validate_field parseNum validations header value row_num = none) ∧
    (rule.values.length = 2 → "Yes" ∈ rule.values → "No" ∈ rule.values →
      lowerStr (pyStrip value) ∈ rule.values.map lowerStr →
      validate_field parseNum validations header value row_num = none) ∧
    (value ≠ "" → pyStrip value ≠ "" →
      ¬(rule.values.length = 2 ∧ "Yes" ∈ rule.values ∧ "No" ∈ rule.values) →
      pyStrip value ∉ rule.values →
      validate_field parseNum validations header value row_num
        = some ⟨row_num, header, pyStrip value, listMsg rule.values, "error"⟩) ∧
    (value ≠ "" → pyStrip value ≠ "" →
      rule.values.length = 2 → "Yes" ∈ rule.values → "No" ∈ rule.values →
      lowerStr (pyStrip value) ∉ rule.values.map lowerStr →
      validate_field parseNum validations header value row_num
        = some ⟨row_num, header, pyStrip value, listMsg rule.values, "error"⟩) := by
  refine ⟨?_, ?_, ?_, ?_⟩
  · intro hmem
    unfold validate_field
    by_cases hv : value = ""
    · simp [hv]
    · by_cases hps : pyStrip value = ""
      · simp [hps]
      · simp [hv, hps, hlook, htype, hmem]
  · intro hlen hYes hNo hlow
    unfold validate_field
    by_cases hv : value = ""
    · simp [hv]
    · by_cases hps : pyStrip value = ""
      · simp [hps]
      · by_cases hmem : pyStrip value ∈ rule.values
        · simp [hv, hps, hlook, htype, hmem]
        · rw [List.mem_map] at hlow
          obtain ⟨x, hx, hxe⟩ := hlow
          have hnall : ¬∀ y ∈ rule.values, ¬lowerStr y = lowerStr (pyStrip value) :=
            fun hall => hall x hx hxe
          simp [hv, hps, hlook, htype, hmem, hlen, hYes, hNo, hnall]
  · intro hv hps hyn hmem
    have hyn2 : ¬((rule.values.length = 2 ∧ "Yes" ∈ rule.values) ∧ "No" ∈ rule.values) :=
      fun h => hyn ⟨h.1.1, h.1.2, h.2⟩
    unfold validate_field
    simp [hv, hps, hlook, htype, hmem, hyn2]
  · intro hv hps hlen hYes hNo hlow
    have hall : ∀ y ∈ rule.values, ¬lowerStr y = lowerStr (pyStrip value) :=
      fun y hy he => hlow (List.mem_map.mpr ⟨y, hy, he⟩)
    have hmem : pyStrip value ∉ rule.values :=
      fun hm => hlow (List.mem_map.mpr ⟨_, hm, rfl⟩)
    unfold validate_field
    simp [hv, hps, hlook, htype, hlen, hYes, hNo, hmem]
    exact hall

/-- C5 witness: for the Yes/No rule, exact membership and, after
trimming, the case-insensitive forms yes, YES and No-with-a-trailing-
blank all pass. -/
theorem C5_list_rule_witness :
    pyStrip "Yes" ∈ yesNoRule.values ∧
    validate_field pn0 [("c", yesNoRule)] "c" "Yes" 2 = none ∧
    validate_field pn0 [("c", yesNoRule)] "c" "yes" 2 = none ∧
    validate_field pn0 [("c", yesNoRule)] "c" "YES" 2 = none ∧
    validate_field pn0 [("c", yesNoRule)] "c" "No " 2 = none :=
  ⟨by decide,
   (C5_list_rule pn0 [("c", yesNoRule)] "c" "Yes" 2 yesNoRule rfl rfl).1 (by decide),
   (C5_list_rule pn0 [("c", yesNoRule)] "c" "yes" 2 yesNoRule rfl rfl).2.1 (by decide)
     (by decide) (by decide) (by decide),
   (C5_list_rule pn0 [("c", yesNoRule)] "c" "YES" 2 yesNoRule rfl rfl).2.1 (by decide)
     (by decide) (by decide) (by decide),
   (C5_list_rule pn0 [("c", yesNoRule)] "c" "No " 2 yesNoRule rfl rfl).2.1 (by decide)
     (by decide) (by decide) (by decide)⟩

/-- C5 counterexample: for the values list Yes, No, Yes — whose allowed
SET is exactly the two-element set containing Yes and No — the special
case does not fire (the list has length 3), so the value yes, a
case-insensitive member of the allowed set, still produces a finding,
against the claim. -/
theorem C5_counterexample :
    dupYesNoRule.values.toFinset = ({"Yes", "No"} : Finset String) ∧
    (dupYesNoRule.values.map lowerStr).contains (lowerStr (pyStrip "yes")) = true ∧
    validate_field pn0 [("c", dupYesNoRule)] "c" "yes" 2
      = some ⟨2, "c", "yes", "Must be one of: Yes, No, Yes", "error"⟩ :=
  ⟨by decide, by decide, by decide⟩

/-- A pattern match on any prefix of the input makes the embedded
`re.match` succeed. -/
theorem reMatch_of_take (pat : List Char → Bool) (s : String) (n : Nat)
    (h : pat (s.data.take n) = true) : reMatch pat s = true := by
  unfold reMatch
  rw [List.any_eq_true]
  refine ⟨min n s.data.length, ?_, ?_⟩
  · rw [List.mem_range]
    omega
  · rcases le_or_lt n s.data.length with hle | hlt
    · rwa [min_eq_left hle]
    · rw [min_eq_right (le_of_lt hlt), List.take_length]
      rwa [List.take_of_length_le (le_of_lt hlt)] at h

/-- C8: the pattern rule upper-cases the trimmed value and requires
only a start-anchored match — any value whose upper-cased form has a
prefix in the pattern's language produces no finding regardless of the
suffix; on non-match the message is the rule's description when
present, else the pattern fallback. -/
theorem C8_pattern_rule (parseNum : String → Option ℚ)
    (validations : List (String × Rule)) (header value : String) (row_num : Nat)
    (rule : Rule) (hlook : validations.lookup header = some rule)
    (htype : rule.type = "pattern") (hne : value ≠ "") (hs : pyStrip value ≠ "") :
    (∀ n : Nat, rule.pat ((upperStr (pyStrip value)).data.take n) = true →
      validate_field parseNum validations header value row_num = none) ∧
    (reMatch rule.pat (upperStr (pyStrip value)) = false →
      validate_field parseNum validations header value row_num
        = some ⟨row_num, header, pyStrip value,
            rule.description.getD ("Must match pattern: " ++ rule.patStr), "error"⟩) := by
  constructor
  · intro n hn
    have hm := reMatch_of_take rule.pat (upperStr (pyStrip value)) n hn
    unfold validate_field
    simp [hne, hs, hlook, htype, hm]
  · intro hm
    unfold validate_field
    simp [hne, hs, hlook, htype, hm]

/-- C8 witness: for the rule whose language is exactly the string AB,
the value abZZZ upper-cases to ABZZZ, whose 2-character prefix is AB,
so no finding is produced despite the suffix. -/
theorem C8_pattern_rule_witness :
    patternRule0.pat ((upperStr (pyStrip "abZZZ")).data.take 2) = true ∧
    validate_field pn0 [("c", patternRule0)] "c" "abZZZ" 2 = none :=
  ⟨by decide,
   (C8_pattern_rule pn0 [("c", patternRule0)] "c" "abZZZ" 2 patternRule0 rfl rfl
     (by decide) (by decide)).1 2 (by decide)⟩

/-- C3 (amended): on a non-empty trimmed input the classifier applies
this priority, first match wins: case-insensitive equality to unknown
or unk gives classification unknown; else a value containing a SPACE
character (U+0020 — not arbitrary whitespace) that splits into at least
2 whitespace-separated parts with some part longer than 3 characters
gives full_name; else a value matching neither initials regex gives
invalid_format; otherwise no finding — with the enumerated examples. -/
theorem C3_subject_id (value : String) (row_num : Nat) (hs : pyStrip value ≠ "") :
    (lowerStr (pyStrip value) = "unknown" ∨ lowerStr (pyStrip value) = "unk" →
      validate_subject_id value row_num
        = some ⟨row_num, pyStrip value, "unknown",
            "Subject ID should not be \"unknown\""⟩) ∧
    (¬(lowerStr (pyStrip value) = "unknown" ∨ lowerStr (pyStrip value) = "unk") →
      ' ' ∈ (pyStrip value).data →
      2 ≤ (pySplit (pyStrip value)).length →
      (∃ p ∈ pySplit (pyStrip value), 3 < p.length) →
      validate_subject_id value row_num
        = some ⟨row_num, pyStrip value, "name",
            "Subject ID appears to be a full name. Use initials instead"⟩) ∧
    (¬(lowerStr (pyStrip value) = "unknown" ∨ lowerStr (pyStrip value) = "unk") →
      ¬(' ' ∈ (pyStrip value).data ∧ 2 ≤ (pySplit (pyStrip value)).length ∧
        ∃ p ∈ pySplit (pyStrip value), 3 < p.length) →
      subjectMatch (pyStrip value) = false →
      validate_subject_id value row_num
        = some ⟨row_num, pyStrip value, "invalid",
            "Subject ID must be initials (e.g., \"JD\", \"J.D.\", \"J.D.S\")"⟩) ∧
    (¬(lowerStr (pyStrip value) = "unknown" ∨ lowerStr (pyStrip value) = "unk") →
      ¬(' ' ∈ (pyStrip value).data ∧ 2 ≤ (pySplit (pyStrip value)).length ∧
        ∃ p ∈ pySplit (pyStrip value), 3 < p.length) →
      subjectMatch (pyStrip value) = true →
      validate_subject_id value row_num = none) ∧
    validate_subject_id "unknown" 2
      = some ⟨2, "unknown", "unknown", "Subject ID should not be \"unknown\""⟩ ∧
    validate_subject_id "UNK" 3
      = some ⟨3, "UNK", "unknown", "Subject ID should not be \"unknown\""⟩ ∧
    validate_subject_id "John Doe" 4
      = some ⟨4, "John Doe", "name",
          "Subject ID appears to be a full name. Use initials instead"⟩ ∧
    validate_subject_id "JD" 5 = none ∧
    validate_subject_id "J.D." 6 = none ∧
    validate_subject_id "J.D.S" 7 = none ∧
    validate_subject_id "J" 8 = none ∧
    validate_subject_id "123" 9
      = some ⟨9, "123", "invalid",
          "Subject ID must be initials (e.g., \"JD\", \"J.D.\", \"J.D.S\")"⟩ := by
  have hv : value ≠ "" := fun h => hs (by rw [h]; rfl)
  refine ⟨?_, ?_, ?_, ?_, by decide, by decide, by decide, by decide, by decide,
    by decide, by decide, by decide⟩
  · intro h
    unfold validate_subject_id
    rcases h with h | h <;> simp [hv, hs, h]
  · intro hu hsp hlen hlong
    obtain ⟨hu1, hu2⟩ := not_or.mp hu
    unfold validate_subject_id
    simp [hv, hs, hu1, hu2, hsp, hlen]
    simpa using hlong
  · intro hu hname hsm
    obtain ⟨hu1, hu2⟩ := not_or.mp hu
    have hcond : ¬((pyStrip value).data.contains ' ' &&
        (decide (2 ≤ (pySplit (pyStrip value)).length) &&
          (pySplit (pyStrip value)).any fun p => decide (3 < p.data.length))) = true := by
      intro hc
      simp only [Bool.and_eq_true, List.any_eq_true, decide_eq_true_eq] at hc
      refine hname ⟨by simpa using hc.1, hc.2.1, ?_⟩
      simpa using hc.2.2
    unfold validate_subject_id
    rw [if_neg (by simp [hv, hs]), if_neg (by simp [hu1, hu2]), if_neg hcond]
    simp [hsm]
  · intro hu hname hsm
    obtain ⟨hu1, hu2⟩ := not_or.mp hu
    have hcond : ¬((pyStrip value).data.contains ' ' &&
        (decide (2 ≤ (pySplit (pyStrip value)).length) &&
          (pySplit (pyStrip value)).any fun p => decide (3 < p.data.length))) = true := by
      intro hc
      simp only [Bool.and_eq_true, List.any_eq_true, decide_eq_true_eq] at hc
      refine hname ⟨by simpa using hc.1, hc.2.1, ?_⟩
      simpa using hc.2.2
    unfold validate_subject_id
    rw [if_neg (by simp [hv, hs]), if_neg (by simp [hu1, hu2]), if_neg hcond]
    simp [hsm]

/-- C3 witness: the amended full-name branch applied to John Doe. -/
theorem C3_subject_id_witness :
    pyStrip "John Doe" ≠ "" ∧
    validate_subject_id "John Doe" 2
      = some ⟨2, "John Doe", "name",
          "Subject ID appears to be a full name. Use initials instead"⟩ :=
  ⟨by decide,
   (C3_subject_id "John Doe" 2 (by decide)).2.1 (by decide) (by decide) (by decide)
     (by decide)⟩

/-- C3 counterexample: the trimmed value A-tab-BCDE contains whitespace
and splits into 2 whitespace-separated parts, one of length 4, so the
claim classifies it full_name; the code only looks for a space
character, finds none, and classifies it invalid_format instead. -/
theorem C3_counterexample :
    pyStrip "A\tBCDE" = "A\tBCDE" ∧
    (pyStrip "A\tBCDE").data.any isPySpace = true ∧
    pySplit (pyStrip "A\tBCDE") = ["A", "BCDE"] ∧
    (∃ p ∈ pySplit (pyStrip "A\tBCDE"), 3 < p.length) ∧
    ¬(lowerStr (pyStrip "A\tBCDE") = "unknown" ∨ lowerStr (pyStrip "A\tBCDE") = "unk") ∧
    validate_subject_id "A\tBCDE" 2
      = some ⟨2, "A\tBCDE", "invalid",
          "Subject ID must be initials (e.g., \"JD\", \"J.D.\", \"J.D.S\")"⟩ := by
  refine ⟨by decide, by decide, by decide, by decide, by decide, by decide⟩

end WADEPS
